import Mathlib

/-
Verification of the session-orchestration and audio-pipeline core of the
APPEN conversation-practice client (frontend/js/api.js, class `Appen`).

The JavaScript is embedded shallowly: the mutable `this.state` object and
the chat-container DOM are one explicit record `AppState`; each method
becomes a pure function from a state (plus oracles for the outcomes of
awaited network calls) to a new state together with the observable side
effects (toast notices, scheduled timers, event trace).  DOM message
elements are modelled by identifiers: `elems` maps every element ever
created to its current attributes (a detached element keeps them, exactly
as a removed DOM node keeps its classList), while `chat` lists the ids
currently attached to the chat container, in document order.
-/

namespace Appen

/-- Outcome of an awaited API call: either the parsed response or the
message of the error thrown (rejected promise). -/
inductive ApiOutcome (α : Type) where
  | ok : α → ApiOutcome α
  | err : String → ApiOutcome α
deriving Repr, DecidableEq

/-- Parsed body of a successful `/api/get_ai_response` call:
`{ response, audioUrl }`. -/
structure AiResp where
  response : String
  audioUrl : Option String
deriving Repr, DecidableEq

/-- An entry of `this.state.messages` (role, content, optional audioUrl;
the timestamp is not modelled). -/
structure MessageRec where
  role : String
  content : String
  audioUrl : Option String
deriving Repr, DecidableEq

/-- Attributes of a chat message DOM element: its role, the text shown in
the bubble, whether the `loading` class is present, the `src` of an audio
player attached by `updateMessage`, and whether an audio-failure note was
appended. -/
structure ElemState where
  role : String
  text : String
  loading : Bool
  audioSrc : Option String
  audioError : Bool
deriving Repr, DecidableEq

/-- The scenario box (`elements.scenarioText`): either plain text content
or the loading skeleton markup installed by `showScenarioLoading`. -/
inductive ScenarioBox where
  | text (s : String)
  | skeleton
deriving Repr, DecidableEq

/-- The state-relevant part of an `Appen` instance: the fields of
`this.state` touched by the pipeline, plus the chat DOM. -/
structure AppState where
  currentLevel : String
  currentScenario : String
  scenarioBox : ScenarioBox
  messages : List MessageRec
  isRecording : Bool
  isLoading : Bool
  currentAiAudioElement : Bool
  elems : List (Nat × ElemState)
  chat : List Nat
  nextId : Nat
deriving Repr, DecidableEq

/-- Observable events of one recording-stop handling, in the order they
occur: creation of the pre-made `Audio` element (with its `src` at
creation time), issue and resolution of the two API calls, the start of
the audio download, and the assignment of the downloaded blob url to the
pre-made element's `src`. -/
inductive Ev where
  | createHandle (src : Option String)
  | transcribeCall
  | transcribeReturn
  | aiCall
  | aiReturn
  | audioFetchCall
  | assignSrc (url : String)
deriving Repr, DecidableEq

/-- JavaScript truthiness of the transcript:
`!userText || !userText.trim()` — the field is absent, or trimming its
whitespace leaves nothing, i.e. every character is whitespace. -/
def jsBlank : Option String → Bool
  | none => true
  | some t => t.toList.all (fun c => c.isWhitespace)

/-- JavaScript truthiness of an optional string (absent or empty is
falsy). -/
def jsStrTruthy : Option String → Bool
  | none => false
  | some u => u ≠ ""

/-- `error.message || fallback` used by the catch-block toast. -/
def jsToastMsg (m : String) : String :=
  if m = "" then "An error occurred while processing the message." else m

/-- `addMessage(role, text, audioUrl)`: pushes `{role, content, audioUrl}`
onto `state.messages`, creates the message element and appends it to the
chat container, returning (new state, element id). -/
def addMessage (s : AppState) (role text : String)
    (audioUrl : Option String) : AppState × Nat :=
  ({ s with
      messages := s.messages ++ [{ role := role, content := text, audioUrl := audioUrl }],
      elems := s.elems ++ [(s.nextId,
        { role := role, text := text, loading := false,
          audioSrc := none, audioError := false })],
      chat := s.chat ++ [s.nextId],
      nextId := s.nextId + 1 }, s.nextId)

/-- `element.classList.add/remove('loading')` on element `i`. -/
def setElemLoading (s : AppState) (i : Nat) (b : Bool) : AppState :=
  { s with elems :=
      s.elems.map (fun p => if p.1 = i then (p.1, { p.2 with loading := b }) else p) }

/-- `messageElement.querySelector('.message-text').textContent = text`. -/
def setElemText (s : AppState) (i : Nat) (t : String) : AppState :=
  { s with elems :=
      s.elems.map (fun p => if p.1 = i then (p.1, { p.2 with text := t }) else p) }

/-- Attaching the audio player with the downloaded blob url to element
`i`'s bubble. -/
def setElemAudio (s : AppState) (i : Nat) (u : String) : AppState :=
  { s with elems :=
      s.elems.map (fun p => if p.1 = i then (p.1, { p.2 with audioSrc := some u }) else p) }

/-- Appending the red audio-failure note to element `i`'s bubble. -/
def setElemAudioError (s : AppState) (i : Nat) : AppState :=
  { s with elems :=
      s.elems.map (fun p => if p.1 = i then (p.1, { p.2 with audioError := true }) else p) }

/-- `element.remove()`: detaches element `i` from the chat container; the
element object (and its classList) survives in `elems`. -/
def removeFromChat (s : AppState) (i : Nat) : AppState :=
  { s with chat := s.chat.filter (fun j => j ≠ i) }

/-- `element.classList.contains('loading')`, read on the element object
itself — it answers true even after the element was detached. -/
def elemLoading (s : AppState) (i : Nat) : Bool :=
  match s.elems.find? (fun p => p.1 = i) with
  | some p => p.2.loading
  | none => false

/-- The catch block of `processNewMessage`: shows one toast with the
error's message and removes the user message element iff it still carries
the `loading` class. -/
def catchBlock (s : AppState) (uId : Nat) (m : String) : AppState × List String :=
  if elemLoading s uId then (removeFromChat s uId, [jsToastMsg m])
  else (s, [jsToastMsg m])

/-- The finally block: releases the busy guard and clears the
`currentAiAudioElement` reference. -/
def finallyBlock (s : AppState) : AppState :=
  { s with isLoading := false, currentAiAudioElement := false }

/-- `updateMessage(messageElement, text, audioUrl, aiAudioElement)`:
sets the bubble text; when an audio url and the pre-made element are both
supplied, downloads the audio (`fetch`) and, on success, assigns the
created blob url to the pre-made element's `src` and attaches it as a
player — on download failure it appends a failure note instead.  The
fetch continuation runs after the synchronous remainder of the pipeline,
which touches disjoint state, so it is applied here in place.  Returns
(new state, `src` of the pre-made element, events). -/
def updateMessage (s : AppState) (i : Nat) (text : String)
    (audioUrl : Option String) (hasHandle : Bool) (handleSrc : Option String)
    (fo : ApiOutcome String) : AppState × Option String × List Ev :=
  let s1 := setElemText s i text
  if jsStrTruthy audioUrl && hasHandle then
    match fo with
    | .ok blobUrl =>
        (setElemAudio s1 i blobUrl, some blobUrl, [.audioFetchCall, .assignSrc blobUrl])
    | .err _ =>
        (setElemAudioError s1 i, handleSrc, [.audioFetchCall])
  else (s1, handleSrc, [])

/-- Result of one `processNewMessage` call: the final state, the final
`src` of the pre-made audio element, the toasts shown, whether the call
was rejected by the busy guard, the state at each `await` suspension
point, and the event trace. -/
structure RunResult where
  final : AppState
  handleSrc : Option String
  toasts : List String
  rejectedBusy : Bool
  susp : List AppState
  events : List Ev
deriving Repr, DecidableEq

/-- `processNewMessage(audioBlob, aiAudioElement)` — the two-phase
pipeline.  `handleSrc0` is the `src` of the pre-made audio element at
entry; `tr` is the outcome of `transcribeAudio` (its `transcription`
field, absent when null), `ai` the outcome of `getAiResponse`, `fo` the
outcome of the audio download inside `updateMessage`. -/
def processNewMessage (s : AppState) (handleSrc0 : Option String)
    (tr : ApiOutcome (Option String)) (ai : ApiOutcome AiResp)
    (fo : ApiOutcome String) : RunResult :=
  if s.isLoading then
    { final := s, handleSrc := handleSrc0, toasts := [],
      rejectedBusy := true, susp := [], events := [] }
  else
    let s1 := { s with isLoading := true }
    let p := addMessage s1 "user" "Processing..." none
    let s2 := p.1
    let uId := p.2
    let s3 := setElemLoading s2 uId true
    match tr with
    | .err m =>
        let c := catchBlock s3 uId m
        { final := finallyBlock c.1, handleSrc := handleSrc0, toasts := c.2,
          rejectedBusy := false, susp := [s3], events := [.transcribeCall] }
    | .ok userText =>
      if jsBlank userText then
        let s4 := removeFromChat s3 uId
        let c := catchBlock s4 uId "Sorry, I didn\u0027t catch that. Please try again."
        { final := finallyBlock c.1, handleSrc := handleSrc0, toasts := c.2,
          rejectedBusy := false, susp := [s3],
          events := [.transcribeCall, .transcribeReturn] }
      else
        let txt := userText.getD ""
        let s4 := (updateMessage s3 uId txt none false handleSrc0 fo).1
        let s5 := setElemLoading s4 uId false
        let s6 := { s5 with
          messages := s5.messages ++ [{ role := "user", content := txt, audioUrl := none }] }
        let q := addMessage s6 "ai" "..." none
        let s7 := q.1
        let aId := q.2
        let s8 := setElemLoading s7 aId true
        match ai with
        | .err m =>
            let c := catchBlock s8 uId m
            { final := finallyBlock c.1, handleSrc := handleSrc0, toasts := c.2,
              rejectedBusy := false, susp := [s3, s8],
              events := [.transcribeCall, .transcribeReturn, .aiCall] }
        | .ok resp =>
            let u := updateMessage s8 aId resp.response resp.audioUrl true handleSrc0 fo
            let s9 := setElemLoading u.1 aId false
            let s10 := { s9 with
              messages := s9.messages ++ [{ role := "ai", content := resp.response, audioUrl := none }] }
            { final := finallyBlock s10, handleSrc := u.2.1, toasts := [],
              rejectedBusy := false, susp := [s3, s8],
              events := [.transcribeCall, .transcribeReturn, .aiCall, .aiReturn] ++ u.2.2 }

/-- Result of `handleRecordingStop`. -/
structure StopResult where
  final : AppState
  handleSrc : Option String
  toasts : List String
  pipelineInvoked : Bool
  events : List Ev
deriving Repr, DecidableEq

/-- `handleRecordingStop(audioBlob)`: clears the recording flag; a blob of
fewer than 1000 bytes only shows a toast and returns before any pipeline
work; otherwise `new Audio()` is created synchronously, stored in
`state.currentAiAudioElement`, and passed to `processNewMessage`. -/
def handleRecordingStop (s : AppState) (blobSize : Nat)
    (tr : ApiOutcome (Option String)) (ai : ApiOutcome AiResp)
    (fo : ApiOutcome String) : StopResult :=
  let s1 := { s with isRecording := false }
  if blobSize < 1000 then
    { final := s1, handleSrc := none,
      toasts := ["Recording too short, please try again."],
      pipelineInvoked := false, events := [] }
  else
    let s2 := { s1 with currentAiAudioElement := true }
    let r := processNewMessage s2 none tr ai fo
    { final := r.final, handleSrc := r.handleSrc, toasts := r.toasts,
      pipelineInvoked := true, events := Ev.createHandle none :: r.events }

/-- The state of a freshly constructed `Appen` instance (constructor
values of `this.state`), with an empty chat container. -/
def initialState : AppState :=
  { currentLevel := "A2", currentScenario := "", scenarioBox := .text "",
    messages := [], isRecording := false, isLoading := false,
    currentAiAudioElement := false, elems := [], chat := [], nextId := 0 }

/-- `this.maxRetries` (constructor). -/
def maxRetries : Nat := 3

/-- Base unit of the retry backoff: `setTimeout(..., 1000 * (retryCount + 1))`. -/
def baseDelay : Nat := 1000

/-- Result of one `generateScenario(type, retryCount)` invocation up to
its first exit: the state after the finally block, the toasts shown,
the retry scheduled by `setTimeout` (next retryCount and its delay in
milliseconds) if any, and whether the invocation was rejected by the
`isLoading` guard. -/
structure AttemptResult where
  final : AppState
  toasts : List String
  scheduledRetry : Option (Nat × Nat)
  rejectedBusy : Bool
deriving Repr, DecidableEq

/-- One invocation of `generateScenario(type, retryCount)`; `o` is the
outcome of the awaited `api.generateScenario` call.  On success the
scenario text is installed and the chat history cleared; on failure with
`retryCount < maxRetries` a retry is scheduled with delay
`baseDelay * (retryCount + 1)` and the invocation returns (the finally
block still releasing the guard); on exhaustion the scenario box shows
the failure message and a toast is emitted. -/
def scenarioAttempt (s : AppState) (retryCount : Nat)
    (o : ApiOutcome String) : AttemptResult :=
  if s.isLoading then
    { final := s, toasts := [], scheduledRetry := none, rejectedBusy := true }
  else
    let s1 := { s with isLoading := true, scenarioBox := ScenarioBox.skeleton }
    match o with
    | .ok scen =>
        let s2 := { s1 with currentScenario := scen, scenarioBox := ScenarioBox.text scen,
                            messages := [], chat := [] }
        { final := { s2 with isLoading := false },
          toasts := ["New scenario generated!"],
          scheduledRetry := none, rejectedBusy := false }
    | .err _ =>
        if retryCount < maxRetries then
          { final := { s1 with isLoading := false }, toasts := [],
            scheduledRetry := some (retryCount + 1, baseDelay * (retryCount + 1)),
            rejectedBusy := false }
        else
          let s2 := { s1 with
            scenarioBox := ScenarioBox.text "Failed to generate scenario. Please try again." }
          { final := { s2 with isLoading := false },
            toasts := ["Scenario generation failed. Please check your network connection."],
            scheduledRetry := none, rejectedBusy := false }

/-- Aggregate of a whole scenario-generation request: final state, all
toasts, the delays of the retries that were scheduled and executed (in
order), and how many retries ran. -/
structure ScenRun where
  final : AppState
  toasts : List String
  delays : List Nat
  retries : Nat
deriving Repr, DecidableEq

/-- Chains `scenarioAttempt` through its scheduled retries; `oracle k` is
the outcome of the attempt called with `retryCount = k`.  The fuel bounds
the recursion; `maxRetries + 1` suffices from `retryCount = 0` since each
retry increments `retryCount` and none is scheduled once it reaches
`maxRetries`. -/
def scenarioRun : Nat → AppState → Nat → (Nat → ApiOutcome String) → ScenRun
  | 0, s, _, _ => { final := s, toasts := [], delays := [], retries := 0 }
  | fuel + 1, s, rc, oracle =>
      let r := scenarioAttempt s rc (oracle rc)
      match r.scheduledRetry with
      | none => { final := r.final, toasts := r.toasts, delays := [], retries := 0 }
      | some (rc2, d) =>
          let rest := scenarioRun fuel r.final rc2 oracle
          { final := rest.final, toasts := r.toasts ++ rest.toasts,
            delays := d :: rest.delays, retries := rest.retries + 1 }

/-- A complete `generateScenario(type)` request starting at
`retryCount = 0`, followed through every scheduled retry. -/
def generateScenarioRun (s : AppState) (oracle : Nat → ApiOutcome String) : ScenRun :=
  scenarioRun (maxRetries + 1) s 0 oracle

/-- State of the audio preload cache (`state.audioPreloadCache`, an
insertion-ordered Map from url to an `Audio` element).  Each `Audio`
element is identified by the counter value at its creation; `released`
lists the elements that were explicitly released (paused and their `src`
cleared) — which only `cleanup` does. -/
structure CacheState where
  cache : List (String × Nat)
  nextRes : Nat
  released : List Nat
deriving Repr, DecidableEq

/-- The "Limit cache size" block of `preloadAudio`: if the size exceeds
10 after the insertion, delete the first-inserted key
(`cache.keys().next().value`).  The deletion only drops the map entry:
no pause or `src` reset is performed on the evicted element. -/
def limitCacheSize (st1 : CacheState) : CacheState :=
  if st1.cache.length > 10 then
    match st1.cache with
    | [] => st1
    | (k, _) :: _ =>
        { st1 with cache := st1.cache.eraseP (fun p => p.1 = k) }
  else st1

/-- `preloadAudio(url)`: returns unchanged when the url is falsy or
already cached; otherwise creates an `Audio` element, inserts it at the
end of the map, and applies the size limit. -/
def preloadAudio (st : CacheState) (url : String) : CacheState :=
  if url = "" then st
  else if st.cache.any (fun p => p.1 = url) then st
  else limitCacheSize
    { st with cache := st.cache ++ [(url, st.nextRes)], nextRes := st.nextRes + 1 }

/-- `cleanup()` on the cache: pauses every cached element, clears its
`src` (the explicit release), and empties the map. -/
def cleanupCache (st : CacheState) : CacheState :=
  { cache := [], nextRes := st.nextRes,
    released := st.released ++ st.cache.map (fun p => p.2) }

/-- The record persisted under the `AppenState` storage key; either field
may be absent in a hand-edited or legacy record. -/
structure SavedRecord where
  currentLevel : Option String
  timestamp : Option Int
deriving Repr, DecidableEq

/-- `savedState.currentLevel || 'A2'` (absent or empty string falls back
to the default level). -/
def jsOrA2 : Option String → String
  | none => "A2"
  | some l => if l = "" then "A2" else l

/-- `selectLevel(level)`: sets the session level.  (The active-button
styling, the debounced persistence write and the toast touch no modelled
state.) -/
def selectLevel (s : AppState) (level : String) : AppState :=
  { s with currentLevel := level }

/-- The 24-hour freshness window in milliseconds. -/
def freshnessWindowMs : Int := 24 * 60 * 60 * 1000

/-- `restoreSession()`: with a saved record whose truthy timestamp is
strictly less than 24 hours before `now`, restores the saved level (with
the `|| 'A2'` fallback) and applies `selectLevel`; otherwise leaves the
state as constructed. -/
def restoreSession (s : AppState) (now : Int) (saved : Option SavedRecord) : AppState :=
  match saved with
  | none => s
  | some sv =>
      match sv.timestamp with
      | none => s
      | some ts =>
          if ts = 0 then s
          else if now - ts < freshnessWindowMs then
            let lvl := jsOrA2 sv.currentLevel
            selectLevel { s with currentLevel := lvl } lvl
          else s

section Lemmas

/-- None of the element-attribute helpers touches the busy guard. -/
@[simp] lemma isLoading_setElemLoading (s : AppState) (i : Nat) (b : Bool) :
    (setElemLoading s i b).isLoading = s.isLoading := rfl

@[simp] lemma isLoading_setElemText (s : AppState) (i : Nat) (t : String) :
    (setElemText s i t).isLoading = s.isLoading := rfl

@[simp] lemma isLoading_setElemAudio (s : AppState) (i : Nat) (u : String) :
    (setElemAudio s i u).isLoading = s.isLoading := rfl

@[simp] lemma isLoading_setElemAudioError (s : AppState) (i : Nat) :
    (setElemAudioError s i).isLoading = s.isLoading := rfl

@[simp] lemma isLoading_addMessage (s : AppState) (r t : String) (a : Option String) :
    ((addMessage s r t a).1).isLoading = s.isLoading := rfl

@[simp] lemma isLoading_removeFromChat (s : AppState) (i : Nat) :
    (removeFromChat s i).isLoading = s.isLoading := rfl

@[simp] lemma isLoading_updateMessage (s : AppState) (i : Nat) (t : String)
    (a : Option String) (hh : Bool) (hs : Option String) (fo : ApiOutcome String) :
    ((updateMessage s i t a hh hs fo).1).isLoading = s.isLoading := by
  unfold updateMessage
  cases fo <;> dsimp only <;> split <;> rfl

@[simp] lemma isLoading_catchBlock (s : AppState) (u : Nat) (m : String) :
    ((catchBlock s u m).1).isLoading = s.isLoading := by
  unfold catchBlock
  split <;> rfl

@[simp] lemma isLoading_finallyBlock (s : AppState) :
    (finallyBlock s).isLoading = false := rfl

/-- A call that arrives while the guard is held is rejected with no state
change, no toast, no suspension and no event. -/
lemma busy_reject (s : AppState) (h0 : Option String) (tr : ApiOutcome (Option String))
    (ai : ApiOutcome AiResp) (fo : ApiOutcome String) (h : s.isLoading = true) :
    processNewMessage s h0 tr ai fo =
      { final := s, handleSrc := h0, toasts := [], rejectedBusy := true,
        susp := [], events := [] } := by
  simp [processNewMessage, h]

/-- A call that takes the guard completes with the guard released, and
holds the guard at every suspension point. -/
lemma run_guard (s : AppState) (h0 : Option String) (tr : ApiOutcome (Option String))
    (ai : ApiOutcome AiResp) (fo : ApiOutcome String) (h : s.isLoading = false) :
    (processNewMessage s h0 tr ai fo).rejectedBusy = false ∧
    (processNewMessage s h0 tr ai fo).final.isLoading = false ∧
    (processNewMessage s h0 tr ai fo).susp ≠ [] ∧
    ∀ s' ∈ (processNewMessage s h0 tr ai fo).susp, s'.isLoading = true := by
  unfold processNewMessage
  rw [h]
  cases tr with
  | err m => simp
  | ok userText =>
      by_cases hb : jsBlank userText = true
      · simp [hb]
      · cases ai with
        | err m => simp [hb]
        | ok resp => simp [hb]

end Lemmas

/-- C1: the busy guard `state.isLoading` is false before a pipeline
execution starts, true at every suspension point of the execution, and
false after it completes or fails in any way; a call made while the guard
is true is rejected immediately, with no queueing, no toast and no change
to the message log or chat, so no two executions overlap. -/
theorem pipeline_busy_guard_mutual_exclusion (s : AppState) (h0 : Option String)
    (tr : ApiOutcome (Option String)) (ai : ApiOutcome AiResp) (fo : ApiOutcome String) :
    (s.isLoading = true →
      (processNewMessage s h0 tr ai fo).rejectedBusy = true ∧
      (processNewMessage s h0 tr ai fo).final = s ∧
      (processNewMessage s h0 tr ai fo).toasts = []) ∧
    (s.isLoading = false →
      (processNewMessage s h0 tr ai fo).rejectedBusy = false ∧
      (processNewMessage s h0 tr ai fo).final.isLoading = false ∧
      (processNewMessage s h0 tr ai fo).susp ≠ [] ∧
      ∀ s' ∈ (processNewMessage s h0 tr ai fo).susp, s'.isLoading = true ∧
        ∀ (h1 : Option String) (tr1 : ApiOutcome (Option String)) (ai1 : ApiOutcome AiResp)
          (fo1 : ApiOutcome String),
          (processNewMessage s' h1 tr1 ai1 fo1).rejectedBusy = true ∧
          (processNewMessage s' h1 tr1 ai1 fo1).final = s') := by
  constructor
  · intro h
    rw [busy_reject s h0 tr ai fo h]
    exact ⟨rfl, rfl, rfl⟩
  · intro h
    obtain ⟨h1, h2, h3, h4⟩ := run_guard s h0 tr ai fo h
    refine ⟨h1, h2, h3, ?_⟩
    intro s' hs'
    have hL := h4 s' hs'
    refine ⟨hL, ?_⟩
    intro h1' tr1 ai1 fo1
    rw [busy_reject s' h1' tr1 ai1 fo1 hL]
    exact ⟨rfl, rfl⟩

/-- Witness for C1 at concrete inputs: a busy state rejects the call
unchanged, and an idle state runs with the guard held at every
suspension and released at the end. -/
theorem pipeline_busy_guard_mutual_exclusion_witness :
    ((processNewMessage { initialState with isLoading := true } none
        (ApiOutcome.ok (some "Hej")) (ApiOutcome.err "x") (ApiOutcome.err "y")).rejectedBusy = true ∧
      (processNewMessage { initialState with isLoading := true } none
        (ApiOutcome.ok (some "Hej")) (ApiOutcome.err "x") (ApiOutcome.err "y")).final =
        { initialState with isLoading := true }) ∧
    ((processNewMessage initialState none (ApiOutcome.ok (some "Hej"))
        (ApiOutcome.err "x") (ApiOutcome.err "y")).rejectedBusy = false ∧
      (processNewMessage initialState none (ApiOutcome.ok (some "Hej"))
        (ApiOutcome.err "x") (ApiOutcome.err "y")).final.isLoading = false) := by
  have hbusy := (pipeline_busy_guard_mutual_exclusion
    { initialState with isLoading := true } none
    (ApiOutcome.ok (some "Hej")) (ApiOutcome.err "x") (ApiOutcome.err "y")).1 (by decide)
  have hidle := (pipeline_busy_guard_mutual_exclusion initialState none
    (ApiOutcome.ok (some "Hej")) (ApiOutcome.err "x") (ApiOutcome.err "y")).2 (by decide)
  exact ⟨⟨hbusy.1, hbusy.2.1⟩, ⟨hidle.1, hidle.2.1⟩⟩

/-- C2 (code behavior at the failing input): a successful exchange from a
fresh session with transcription "Hej" and response "Hej då" leaves
`state.messages` with FOUR entries — the "Processing..." user placeholder
and the "..." partner placeholder are pushed by `addMessage` and never
removed, alongside the two real entries — while the rendered chat holds
exactly the two final message elements with no loading class.  The claim
that the message log gains exactly one user and one partner entry with no
leftover placeholders therefore fails on `state.messages`. -/
theorem successful_exchange_message_log_gain :
    (processNewMessage initialState none (ApiOutcome.ok (some "Hej"))
        (ApiOutcome.ok ⟨"Hej då", some "http://a/1.mp3"⟩) (ApiOutcome.ok "blob:1")).final.messages =
      [⟨"user", "Processing...", none⟩, ⟨"user", "Hej", none⟩,
       ⟨"ai", "...", none⟩, ⟨"ai", "Hej då", none⟩] ∧
    (processNewMessage initialState none (ApiOutcome.ok (some "Hej"))
        (ApiOutcome.ok ⟨"Hej då", some "http://a/1.mp3"⟩) (ApiOutcome.ok "blob:1")).final.chat = [0, 1] ∧
    (processNewMessage initialState none (ApiOutcome.ok (some "Hej"))
        (ApiOutcome.ok ⟨"Hej då", some "http://a/1.mp3"⟩) (ApiOutcome.ok "blob:1")).final.elems =
      [(0, ⟨"user", "Hej", false, none, false⟩),
       (1, ⟨"ai", "Hej då", false, some "blob:1", false⟩)] ∧
    (processNewMessage initialState none (ApiOutcome.ok (some "Hej"))
        (ApiOutcome.ok ⟨"Hej då", some "http://a/1.mp3"⟩) (ApiOutcome.ok "blob:1")).toasts = [] := by
  decide

/-- C3 (code behavior at the failing input): on a whitespace-only
transcription the user placeholder element is removed from the chat (the
chat returns to its pre-call emptiness, no partner placeholder is ever
created, one failure toast is shown, the guard is released, and no
response call is issued), but `state.messages` keeps the
"Processing..." entry pushed by `addMessage`, so the message array does
not return to its pre-call state. -/
theorem empty_transcription_leaves_processing_entry :
    (processNewMessage initialState none (ApiOutcome.ok (some "  "))
        (ApiOutcome.err "unused") (ApiOutcome.err "unused2")).final.chat = [] ∧
    (processNewMessage initialState none (ApiOutcome.ok (some "  "))
        (ApiOutcome.err "unused") (ApiOutcome.err "unused2")).final.messages =
      [⟨"user", "Processing...", none⟩] ∧
    (processNewMessage initialState none (ApiOutcome.ok (some "  "))
        (ApiOutcome.err "unused") (ApiOutcome.err "unused2")).final.isLoading = false ∧
    (processNewMessage initialState none (ApiOutcome.ok (some "  "))
        (ApiOutcome.err "unused") (ApiOutcome.err "unused2")).toasts =
      ["Sorry, I didn't catch that. Please try again."] ∧
    (processNewMessage initialState none (ApiOutcome.ok (some "  "))
        (ApiOutcome.err "unused") (ApiOutcome.err "unused2")).events =
      [Ev.transcribeCall, Ev.transcribeReturn] := by
  decide

/-- C4 (code behavior at the failing input): when transcription succeeds
with "Hej" and response-generation throws a 500 error, the committed user
message element stays, exactly one toast is shown and the guard is
released — but the partner placeholder element (text "...", loading
class still set) is NOT removed from the chat: the catch block only ever
removes the user element. -/
theorem response_failure_keeps_partner_placeholder :
    (processNewMessage initialState none (ApiOutcome.ok (some "Hej"))
        (ApiOutcome.err "API Error: 500 Internal Server Error")
        (ApiOutcome.err "unused")).final.chat = [0, 1] ∧
    (processNewMessage initialState none (ApiOutcome.ok (some "Hej"))
        (ApiOutcome.err "API Error: 500 Internal Server Error")
        (ApiOutcome.err "unused")).final.elems =
      [(0, ⟨"user", "Hej", false, none, false⟩),
       (1, ⟨"ai", "...", true, none, false⟩)] ∧
    (processNewMessage initialState none (ApiOutcome.ok (some "Hej"))
        (ApiOutcome.err "API Error: 500 Internal Server Error")
        (ApiOutcome.err "unused")).toasts = ["API Error: 500 Internal Server Error"] ∧
    (processNewMessage initialState none (ApiOutcome.ok (some "Hej"))
        (ApiOutcome.err "API Error: 500 Internal Server Error")
        (ApiOutcome.err "unused")).final.isLoading = false := by
  decide

/-- C5: a recording blob of fewer than 1000 bytes never reaches the
pipeline — `processNewMessage` is not invoked, the message array and chat
are unchanged, and the caller is notified with the too-short toast. -/
theorem too_short_recording_never_reaches_pipeline (s : AppState) (n : Nat)
    (tr : ApiOutcome (Option String)) (ai : ApiOutcome AiResp)
    (fo : ApiOutcome String) (h : n < 1000) :
    (handleRecordingStop s n tr ai fo).pipelineInvoked = false ∧
    (handleRecordingStop s n tr ai fo).final.messages = s.messages ∧
    (handleRecordingStop s n tr ai fo).final.chat = s.chat ∧
    (handleRecordingStop s n tr ai fo).toasts =
      ["Recording too short, please try again."] := by
  simp [handleRecordingStop, h]

/-- Witness for C5: a 600-byte unit (below the 1000-byte threshold) is
rejected with the notice and does not change the logs. -/
theorem too_short_recording_never_reaches_pipeline_witness :
    (handleRecordingStop initialState 600 (ApiOutcome.err "x")
        (ApiOutcome.err "y") (ApiOutcome.err "z")).pipelineInvoked = false ∧
    (handleRecordingStop initialState 600 (ApiOutcome.err "x")
        (ApiOutcome.err "y") (ApiOutcome.err "z")).final.messages = initialState.messages ∧
    (handleRecordingStop initialState 600 (ApiOutcome.err "x")
        (ApiOutcome.err "y") (ApiOutcome.err "z")).final.chat = initialState.chat ∧
    (handleRecordingStop initialState 600 (ApiOutcome.err "x")
        (ApiOutcome.err "y") (ApiOutcome.err "z")).toasts =
      ["Recording too short, please try again."] :=
  too_short_recording_never_reaches_pipeline initialState 600
    (ApiOutcome.err "x") (ApiOutcome.err "y") (ApiOutcome.err "z") (by decide)

section EventLemmas

/-- Shape of the pipeline event trace when the guard is taken: the first
event is the transcription call, and any `src` assignment to the
pre-made audio element happens strictly after the response event. -/
lemma events_shape (s : AppState) (h0 : Option String) (tr : ApiOutcome (Option String))
    (ai : ApiOutcome AiResp) (fo : ApiOutcome String) (h : s.isLoading = false) :
    (∃ rest, (processNewMessage s h0 tr ai fo).events = Ev.transcribeCall :: rest) ∧
    ∀ u, Ev.assignSrc u ∈ (processNewMessage s h0 tr ai fo).events →
      ∃ l1 l2, (processNewMessage s h0 tr ai fo).events = l1 ++ Ev.aiReturn :: l2 ∧
        Ev.assignSrc u ∈ l2 := by
  unfold processNewMessage
  rw [h]
  cases tr with
  | err m =>
      refine ⟨⟨_, rfl⟩, ?_⟩
      intro u hu
      simp at hu
  | ok userText =>
      by_cases hb : jsBlank userText = true
      · simp only [hb, if_true]
        refine ⟨⟨_, rfl⟩, ?_⟩
        intro u hu
        simp at hu
      · simp only [hb, if_false]
        cases ai with
        | err m =>
            refine ⟨⟨_, rfl⟩, ?_⟩
            intro u hu
            simp at hu
        | ok resp =>
            unfold updateMessage
            by_cases ha : jsStrTruthy resp.audioUrl = true
            · cases fo with
              | ok blobUrl =>
                  simp only [ha, Bool.true_and, if_true]
                  refine ⟨⟨_, rfl⟩, ?_⟩
                  intro u hu
                  refine ⟨[Ev.transcribeCall, Ev.transcribeReturn, Ev.aiCall],
                    [Ev.audioFetchCall, Ev.assignSrc blobUrl], rfl, ?_⟩
                  simp at hu ⊢
                  exact hu
              | err m =>
                  simp only [ha, Bool.true_and, if_true]
                  refine ⟨⟨_, rfl⟩, ?_⟩
                  intro u hu
                  simp at hu
            · simp only [ha, Bool.false_and, if_false]
              refine ⟨⟨_, rfl⟩, ?_⟩
              intro u hu
              simp at hu

end EventLemmas

/-- C9: for every recording that passes the size threshold, the audio
element that will hold the partner reply is created synchronously when
the recording gesture ends — it is the very first event, before the
first asynchronous call (the transcription request) — and it is created
with an empty `src`; its `src` is assigned only after the response has
arrived (an `aiReturn` event strictly precedes any `assignSrc` event). -/
theorem audio_handle_created_at_gesture (s : AppState) (n : Nat)
    (tr : ApiOutcome (Option String)) (ai : ApiOutcome AiResp) (fo : ApiOutcome String)
    (hL : s.isLoading = false) (hn : 1000 ≤ n) :
    (∃ rest, (handleRecordingStop s n tr ai fo).events =
        Ev.createHandle none :: Ev.transcribeCall :: rest) ∧
    ∀ u, Ev.assignSrc u ∈ (handleRecordingStop s n tr ai fo).events →
      ∃ l1 l2, (handleRecordingStop s n tr ai fo).events = l1 ++ Ev.aiReturn :: l2 ∧
        Ev.assignSrc u ∈ l2 := by
  have hn' : ¬ n < 1000 := Nat.not_lt.mpr hn
  have hs2 : ({ s with isRecording := false, currentAiAudioElement := true } : AppState).isLoading = false := hL
  obtain ⟨⟨rest, hrest⟩, hsrc⟩ := events_shape
    { s with isRecording := false, currentAiAudioElement := true } none tr ai fo hs2
  unfold handleRecordingStop
  rw [if_neg hn']
  dsimp only
  constructor
  · exact ⟨rest, congrArg (List.cons (Ev.createHandle none)) hrest⟩
  · intro u hu
    have hu' : Ev.assignSrc u ∈ (processNewMessage
        { s with isRecording := false, currentAiAudioElement := true } none tr ai fo).events := by
      rcases List.mem_cons.mp hu with h | h
      · exact absurd h (by simp)
      · exact h
    obtain ⟨l1, l2, hsplit, hmem⟩ := hsrc u hu'
    refine ⟨Ev.createHandle none :: l1, l2, ?_, hmem⟩
    rw [List.cons_append]
    exact congrArg (List.cons (Ev.createHandle none)) hsplit

/-- Witness for C9: a 2000-byte recording from the idle initial state,
with a successful transcription, response and audio download. -/
theorem audio_handle_created_at_gesture_witness :
    ∃ rest, (handleRecordingStop initialState 2000 (ApiOutcome.ok (some "Hej"))
        (ApiOutcome.ok ⟨"Hej då", some "http://a/1.mp3"⟩) (ApiOutcome.ok "blob:1")).events =
      Ev.createHandle none :: Ev.transcribeCall :: rest :=
  (audio_handle_created_at_gesture initialState 2000 (ApiOutcome.ok (some "Hej"))
    (ApiOutcome.ok ⟨"Hej då", some "http://a/1.mp3"⟩) (ApiOutcome.ok "blob:1")
    (by decide) (by decide)).1

section ScenarioLemmas

/-- A failing attempt below the retry bound schedules the backoff retry
and releases the guard through the finally block. -/
lemma attempt_err (s : AppState) (rc : Nat) (m : String)
    (h : s.isLoading = false) (hrc : rc < maxRetries) :
    scenarioAttempt s rc (ApiOutcome.err m) =
      { final := { s with isLoading := false, scenarioBox := ScenarioBox.skeleton },
        toasts := [], scheduledRetry := some (rc + 1, baseDelay * (rc + 1)),
        rejectedBusy := false } := by
  simp [scenarioAttempt, h, hrc]

/-- The attempt at the retry bound reports exhaustion: failure text in
the scenario box, one toast, no retry scheduled, guard released. -/
lemma attempt_exhaust (s : AppState) (m : String) (h : s.isLoading = false) :
    scenarioAttempt s maxRetries (ApiOutcome.err m) =
      { final := { s with
          isLoading := false,
          scenarioBox := ScenarioBox.text "Failed to generate scenario. Please try again." },
        toasts := ["Scenario generation failed. Please check your network connection."],
        scheduledRetry := none, rejectedBusy := false } := by
  simp [scenarioAttempt, h]

end ScenarioLemmas

/-- C6: when every attempt of a scenario-generation request fails, the
request is retried exactly 3 times, the retry after attempt k being
scheduled with delay (k+1) times the 1000 ms base unit (delays 1000,
2000, 3000); after exhaustion the scenario box shows the visible failure
message, exactly one failure toast notifies the user, no further retry
is scheduled, and the guard ends released. -/
theorem scenario_retry_backoff_and_exhaustion (s : AppState) (e : Nat → String)
    (h : s.isLoading = false) :
    (generateScenarioRun s (fun k => ApiOutcome.err (e k))).delays =
      [1 * baseDelay, 2 * baseDelay, 3 * baseDelay] ∧
    (generateScenarioRun s (fun k => ApiOutcome.err (e k))).retries = 3 ∧
    (generateScenarioRun s (fun k => ApiOutcome.err (e k))).final.scenarioBox =
      ScenarioBox.text "Failed to generate scenario. Please try again." ∧
    (generateScenarioRun s (fun k => ApiOutcome.err (e k))).toasts =
      ["Scenario generation failed. Please check your network connection."] ∧
    (generateScenarioRun s (fun k => ApiOutcome.err (e k))).final.isLoading = false := by
  have h1 : (1 : Nat) < maxRetries := by decide
  have h2 : (2 : Nat) < maxRetries := by decide
  have h0 : (0 : Nat) < maxRetries := by decide
  simp only [generateScenarioRun, scenarioRun,
    (attempt_err s 0 (e 0) h h0),
    (attempt_err ({ s with isLoading := false, scenarioBox := ScenarioBox.skeleton })
      1 (e 1) rfl h1),
    (attempt_err ({ s with isLoading := false, scenarioBox := ScenarioBox.skeleton })
      2 (e 2) rfl h2),
    (attempt_exhaust ({ s with isLoading := false, scenarioBox := ScenarioBox.skeleton })
      (e 3) rfl)]
  refine ⟨rfl, rfl, rfl, rfl, rfl⟩

/-- Witness for C6: from the idle initial state, a request whose four
attempts all fail with a network error runs the three backoff retries
and reports the failure. -/
theorem scenario_retry_backoff_and_exhaustion_witness :
    (generateScenarioRun initialState (fun _ => ApiOutcome.err "Network error")).delays =
      [1 * baseDelay, 2 * baseDelay, 3 * baseDelay] ∧
    (generateScenarioRun initialState (fun _ => ApiOutcome.err "Network error")).retries = 3 ∧
    (generateScenarioRun initialState (fun _ => ApiOutcome.err "Network error")).final.scenarioBox =
      ScenarioBox.text "Failed to generate scenario. Please try again." ∧
    (generateScenarioRun initialState (fun _ => ApiOutcome.err "Network error")).toasts =
      ["Scenario generation failed. Please check your network connection."] ∧
    (generateScenarioRun initialState (fun _ => ApiOutcome.err "Network error")).final.isLoading =
      false :=
  scenario_retry_backoff_and_exhaustion initialState (fun _ => "Network error") (by decide)

/-- C10: when a scenario-generation attempt fails and schedules its
backoff retry, the finally block has already reset `isLoading` to false
by the time the attempt returns — before the backoff delay elapses — so
the guard is false for the entire backoff wait (nothing else of this
request runs until the timer fires), and a new `generateScenario`
invocation arriving during that wait is not rejected by the guard even
though a retry of the earlier request is still pending. -/
theorem backoff_wait_guard_released (s : AppState) (rc : Nat) (m : String)
    (h : s.isLoading = false) (hrc : rc < maxRetries) :
    (scenarioAttempt s rc (ApiOutcome.err m)).scheduledRetry =
      some (rc + 1, baseDelay * (rc + 1)) ∧
    (scenarioAttempt s rc (ApiOutcome.err m)).final.isLoading = false ∧
    ∀ o : ApiOutcome String,
      (scenarioAttempt (scenarioAttempt s rc (ApiOutcome.err m)).final 0 o).rejectedBusy
        = false := by
  rw [attempt_err s rc m h hrc]
  refine ⟨rfl, rfl, ?_⟩
  intro o
  cases o with
  | ok v => simp [scenarioAttempt]
  | err m2 =>
      simp only [scenarioAttempt]
      norm_num
      split <;> rfl

/-- Witness for C10: the first attempt fails from the idle initial state;
a fresh invocation arriving during the scheduled 1000 ms wait proceeds. -/
theorem backoff_wait_guard_released_witness :
    (scenarioAttempt initialState 0 (ApiOutcome.err "boom")).scheduledRetry =
      some (1, baseDelay * 1) ∧
    (scenarioAttempt initialState 0 (ApiOutcome.err "boom")).final.isLoading = false ∧
    (scenarioAttempt (scenarioAttempt initialState 0 (ApiOutcome.err "boom")).final 0
      (ApiOutcome.ok "At the bakery")).rejectedBusy = false := by
  have hw := backoff_wait_guard_released initialState 0 "boom" (by decide) (by decide)
  exact ⟨hw.1, hw.2.1, hw.2.2 (ApiOutcome.ok "At the bakery")⟩

/-- Eleven distinct urls, used to drive the cache one past capacity. -/
def elevenUrls : List String :=
  ["u1", "u2", "u3", "u4", "u5", "u6", "u7", "u8", "u9", "u10", "u11"]

/-- C7 counterexample: inserting the eleven distinct urls into the empty
cache evicts the first-inserted entry (url u1, whose Audio element is
resource 0) — the cache keeps the ten younger entries — yet the released
set stays empty: the eviction releases nothing, so the part of the claim
asserting that eviction releases the evicted entry's resource is false
on the code. -/
theorem cache_eviction_releases_nothing :
    (elevenUrls.foldl preloadAudio { cache := [], nextRes := 0, released := [] }).cache.map
        Prod.fst =
      ["u2", "u3", "u4", "u5", "u6", "u7", "u8", "u9", "u10", "u11"] ∧
    (elevenUrls.foldl preloadAudio { cache := [], nextRes := 0, released := [] }).released
      = [] := by
  decide

section CacheLemmas

/-- The size-limit step never touches the released set. -/
lemma limitCacheSize_released (st1 : CacheState) :
    (limitCacheSize st1).released = st1.released := by
  unfold limitCacheSize
  split
  · split <;> rfl
  · rfl

/-- The size-limit step brings any cache of at most 11 entries back to at
most 10 entries. -/
lemma limitCacheSize_bound (st1 : CacheState) (h : st1.cache.length ≤ 11) :
    (limitCacheSize st1).cache.length ≤ 10 := by
  unfold limitCacheSize
  split
  · rename_i hgt
    split
    · rename_i heq
      rw [heq] at hgt
      simp at hgt
    · rename_i k v tail heq
      have herase : List.eraseP (fun p => decide (p.1 = k)) ((k, v) :: tail) = tail :=
        List.eraseP_cons_of_pos (by simp)
      have htail : tail.length ≤ 10 := by
        rw [heq] at h
        simp only [List.length_cons] at h
        omega
      rw [heq]
      exact (congrArg List.length herase).trans_le htail
  · omega

/-- An insertion never touches the released set. -/
lemma preloadAudio_released (st : CacheState) (url : String) :
    (preloadAudio st url).released = st.released := by
  unfold preloadAudio
  split
  · rfl
  · split
    · rfl
    · exact limitCacheSize_released _

/-- The capacity bound is preserved by every insertion. -/
lemma preloadAudio_bound (st : CacheState) (url : String)
    (h : st.cache.length ≤ 10) : (preloadAudio st url).cache.length ≤ 10 := by
  unfold preloadAudio
  split
  · exact h
  · split
    · exact h
    · apply limitCacheSize_bound
      simp only [List.length_append, List.length_cons, List.length_nil]
      omega

/-- Inserting a fresh non-empty url into a full cache evicts exactly the
least-recently-inserted entry. -/
lemma preloadAudio_evict (st : CacheState) (url : String)
    (hu : url ≠ "") (hf : (st.cache.any fun p => p.1 = url) = false)
    (hc : st.cache.length = 10) :
    (preloadAudio st url).cache = st.cache.tail ++ [(url, st.nextRes)] := by
  obtain ⟨c, n, r⟩ := st
  dsimp only at hc hf ⊢
  cases c with
  | nil => simp at hc
  | cons hd tl =>
      obtain ⟨k0, v0⟩ := hd
      have hf' : ¬ ((((k0, v0) :: tl).any fun p => p.1 = url) = true) := by
        simp only [hf]
        exact Bool.false_ne_true
      unfold preloadAudio limitCacheSize
      rw [if_neg hu, if_neg hf']
      dsimp only [List.cons_append]
      have hlen : ((k0, v0) :: (tl ++ [(url, n)])).length > 10 := by
        simp only [List.length_cons] at hc
        simp [hc]
      rw [if_pos hlen]
      dsimp only [List.tail_cons]
      have herase : List.eraseP (fun p => decide (p.1 = k0)) ((k0, v0) :: (tl ++ [(url, n)])) =
          tl ++ [(url, n)] := List.eraseP_cons_of_pos (by simp)
      exact herase

end CacheLemmas

/-- C7 amended: after any insertion the cache holds at most 10 entries,
and inserting a fresh url into a full cache evicts exactly the
least-recently-inserted entry; but the eviction only drops the map entry —
the released set is unchanged by every insertion, the evicted Audio
element is not explicitly released. -/
theorem cache_bound_eviction_no_release (st : CacheState) (url : String) :
    (st.cache.length ≤ 10 → (preloadAudio st url).cache.length ≤ 10) ∧
    (preloadAudio st url).released = st.released ∧
    (url ≠ "" → st.cache.any (fun p => p.1 = url) = false → st.cache.length = 10 →
      (preloadAudio st url).cache = st.cache.tail ++ [(url, st.nextRes)]) :=
  ⟨fun h => preloadAudio_bound st url h, preloadAudio_released st url,
   fun hu hf hc => preloadAudio_evict st url hu hf hc⟩

/-- Witness for C7 (amended): a full cache of ten entries receiving the
fresh url u11 stays at ten entries, evicts (u1, 0), and releases
nothing. -/
theorem cache_bound_eviction_no_release_witness :
    (preloadAudio
        { cache := [("u1", 0), ("u2", 1), ("u3", 2), ("u4", 3), ("u5", 4), ("u6", 5),
                    ("u7", 6), ("u8", 7), ("u9", 8), ("u10", 9)],
          nextRes := 10, released := [] } "u11").cache.length ≤ 10 ∧
    (preloadAudio
        { cache := [("u1", 0), ("u2", 1), ("u3", 2), ("u4", 3), ("u5", 4), ("u6", 5),
                    ("u7", 6), ("u8", 7), ("u9", 8), ("u10", 9)],
          nextRes := 10, released := [] } "u11").released = [] ∧
    (preloadAudio
        { cache := [("u1", 0), ("u2", 1), ("u3", 2), ("u4", 3), ("u5", 4), ("u6", 5),
                    ("u7", 6), ("u8", 7), ("u9", 8), ("u10", 9)],
          nextRes := 10, released := [] } "u11").cache =
      [("u2", 1), ("u3", 2), ("u4", 3), ("u5", 4), ("u6", 5),
       ("u7", 6), ("u8", 7), ("u9", 8), ("u10", 9), ("u11", 10)] := by
  have hw := cache_bound_eviction_no_release
    { cache := [("u1", 0), ("u2", 1), ("u3", 2), ("u4", 3), ("u5", 4), ("u6", 5),
                ("u7", 6), ("u8", 7), ("u9", 8), ("u10", 9)],
      nextRes := 10, released := [] } "u11"
  exact ⟨hw.1 (by decide), hw.2.1, (hw.2.2 (by decide) (by decide) (by decide)).trans (by decide)⟩

/-- C8: on startup, a saved record whose (nonzero) timestamp lies
strictly within the 24-hour freshness window restores the saved level
(with the default as fallback when the saved level is absent or empty);
a record at or beyond the window leaves the state exactly as
constructed, so the default level is used, as does an absent record. -/
theorem session_restore_freshness (s : AppState) (now ts : Int) (lvl : Option String)
    (hts : ts ≠ 0) :
    (now - ts < freshnessWindowMs →
      (restoreSession s now
          (some { currentLevel := lvl, timestamp := some ts })).currentLevel = jsOrA2 lvl) ∧
    (freshnessWindowMs ≤ now - ts →
      restoreSession s now (some { currentLevel := lvl, timestamp := some ts }) = s) ∧
    restoreSession s now none = s := by
  refine ⟨?_, ?_, rfl⟩
  · intro hf
    simp [restoreSession, selectLevel, hts, hf]
  · intro hstale
    have hnf : ¬ (now - ts < freshnessWindowMs) := not_lt.mpr hstale
    simp [restoreSession, hts, hnf]

/-- Witness for C8: with the clock at 1000000000000 ms, a record saved
23 hours earlier restores level B1, while one saved 25 hours earlier is
discarded and the constructed default A2 remains. -/
theorem session_restore_freshness_witness :
    (restoreSession initialState 1000000000000
        (some { currentLevel := some "B1", timestamp := some 999917200000 })).currentLevel
      = "B1" ∧
    restoreSession initialState 1000000000000
        (some { currentLevel := some "B1", timestamp := some 999910000000 })
      = initialState ∧
    initialState.currentLevel = "A2" := by
  have h23 := (session_restore_freshness initialState 1000000000000 999917200000
    (some "B1") (by decide)).1 (by decide)
  have h25 := (session_restore_freshness initialState 1000000000000 999910000000
    (some "B1") (by decide)).2.1 (by decide)
  exact ⟨h23.trans (by decide), h25, rfl⟩

end Appen
